import Mathlib

/-!
Verification of the spatial-partitioning, Gaussian-imputation and sweep core of
the GHF Greenland gradient-boosting repository
(src/global_learning_gb_circles_gaussian.py, src/error_analysis.py).

Tabular pandas data is embedded as lists of rows; float arithmetic as ℝ;
NaN/missing cells as `Option ℝ` (`none` = NaN); exceptions as `Except String`.
The seeded randomness of `sklearn.model_selection.train_test_split`
(`random_state=0`) is passed explicitly as a `shuffle` function, the random
draws of `np.random.randn` as an explicit sequence, and the fitted regressor
(`sklearn.ensemble.GradientBoostingRegressor`, an external collaborator) as an
explicit fit-and-predict function argument.
-/

namespace GhfGreenland

/-- One row of the tabular dataset as it reaches the spatial splitting
pipeline (`gris_known` / the error-analysis data after `dropna`): the
coordinate columns `Longitude_1` and `Latitude_1`, the target column `GHF`,
and the remaining covariate columns in order. -/
structure Row where
  lon : ℝ
  lat : ℝ
  ghf : ℝ
  covs : List ℝ

/-- `math.radians`: degrees to radians. -/
noncomputable def radians (x : ℝ) : ℝ := x * (Real.pi / 180)

/-- The row-level haversine formula `_haversine` inside `haversine_distance`
(src/global_learning_gb_circles_gaussian.py lines 139-151):
`lon1, lat1 = center`, `lon2, lat2 = row['Longitude_1'], row['Latitude_1']`,
all converted to radians, `a = sin(dlat/2)^2 + cos(lat1)*cos(lat2)*sin(dlon/2)^2`,
`c = 2*asin(sqrt(a))`, `km = 6367*c`. -/
noncomputable def _haversine (center : ℝ × ℝ) (lon2 lat2 : ℝ) : ℝ :=
  6367 * (2 * Real.arcsin (Real.sqrt (
    Real.sin ((radians lat2 - radians center.2) / 2) ^ 2 +
    Real.cos (radians center.2) * Real.cos (radians lat2) *
      Real.sin ((radians lon2 - radians center.1) / 2) ^ 2)))

/-- `haversine_distance(data, center)`: the column of per-row distances from
`center`, in input order. -/
noncomputable def haversine_distance (data : List Row) (center : ℝ × ℝ) : List ℝ :=
  data.map (fun row => _haversine center row.lon row.lat)

/-- `split_by_distance(data, center, radius)` (lines 129-136): the rows at
distance strictly below `radius` and the rows at distance strictly above
`radius` (the temporary `_distance` column is modelled by recomputing the
distance in each comparison; its in-place effect on the caller's frame is
modelled separately by `split_by_distance_state`). -/
noncomputable def split_by_distance (data : List Row) (center : ℝ × ℝ) (radius : ℝ) :
    List Row × List Row :=
  (data.filter (fun row => decide (_haversine center row.lon row.lat < radius)),
   data.filter (fun row => decide (radius < _haversine center row.lon row.lat)))

/- ### Train/test splitting (`split`, lines 158-166) -/

/-- The feature part of a row once the target column `GHF` is dropped
(`data_train.drop('GHF', axis=1)`). -/
structure Features where
  lon : ℝ
  lat : ℝ
  covs : List ℝ

/-- `row.drop('GHF')`: the covariate part of a row. -/
def dropGHF (row : Row) : Features := ⟨row.lon, row.lat, row.covs⟩

/-- `sklearn.model_selection.train_test_split(l, random_state=0,
test_size=t)` as the repository's sklearn (0.18-0.20 era, python 2) behaves:
a float `test_size` outside `[0, 1)` is rejected with a `ValueError`;
otherwise the seeded permutation of the rows (passed explicitly as
`shuffle`) is cut after `ceil(t * n)` rows, the first part being the test
set and the rest the train set; an empty input yields two empty outputs
(the explicit "resulting train set will be empty" check only appeared in
sklearn 0.21, and the callers here guard `len(X_test) == 0` /
`assert not X_test.empty` themselves). -/
def train_test_split (shuffle : List Row → List Row) (l : List Row) (test_size : ℚ) :
    Except String (List Row × List Row) :=
  if test_size < 0 ∨ 1 ≤ test_size then
    .error "ValueError: test_size should be a float in the (0, 1) range"
  else
    let sh := shuffle l
    let n_test := ⌈test_size * sh.length⌉₊
    .ok (sh.drop n_test, sh.take n_test)

/-- `split(data, center, test_size=.3, max_dist=3500)` (lines 158-166):
`data_test, data_train = split_by_distance(data, center, max_dist)`;
`additional_train, data_test = train_test_split(data_test, random_state=0,
test_size=test_size)`; `data_train = concat([data_train, additional_train])`;
the target column `GHF` is then separated from the covariates of both
parts. The seeded shuffle of `train_test_split` is the explicit `shuffle`
argument. -/
noncomputable def split (shuffle : List Row → List Row) (data : List Row)
    (center : ℝ × ℝ) (test_size : ℚ) (max_dist : ℝ) :
    Except String (List Features × List ℝ × List Features × List ℝ) :=
  match train_test_split shuffle (split_by_distance data center max_dist).1 test_size with
  | .error e => .error e
  | .ok tt =>
    let data_train := (split_by_distance data center max_dist).2 ++ tt.1
    let data_test := tt.2
    .ok (data_train.map dropGHF, data_train.map Row.ghf,
         data_test.map dropGHF, data_test.map Row.ghf)

/- ### Gaussian anchor imputation (`fill_in_greenland_GHF`, lines 89-125) -/

/-- One ice-core anchor of the `GREENLAND` table: columns `lat`, `lon`,
`ghf` (the known value), `rad` (the Gaussian decay radius) and `core`
(the name). -/
structure Anchor where
  lat : ℝ
  lon : ℝ
  ghf : ℝ
  rad : ℝ
  core : String

/-- The `GREENLAND` ice-core table (lines 37-43). -/
noncomputable def GREENLAND : List Anchor :=
  [⟨72.58, -37.64, 51.3, 1000, "GRIP"⟩,
   ⟨72.60, -38.50, 60, 1000, "GISP2"⟩,
   ⟨65.18, -43.82, 20, 1000, "DYE3"⟩,
   ⟨75.10, -42.32, 135, 150, "NGRIP"⟩]

/-- `gauss(amp, dist, rad) = amp / exp(dist**2 / rad**2)` (lines 90-91). -/
noncomputable def gauss (amp dist rad : ℝ) : ℝ := amp / Real.exp (dist ^ 2 / rad ^ 2)

/-- `max_ice_core_dist = 150.`: the distance beyond which an ice core's
effect is ignored (line 94). -/
def max_ice_core_dist : ℝ := 150

/-- The per-record estimate column of one anchor as a function of the
record's distance `d` to that anchor: `gauss(point.ghf, d, point.rad)`
(lines 110-113), set to NaN where `d > max_ice_core_dist` (line 114). -/
noncomputable def anchor_estimate_at (point : Anchor) (d : ℝ) : Option ℝ :=
  if max_ice_core_dist < d then none else some (gauss point.ghf d point.rad)

/-- A row of the GrIS dataset before imputation: coordinates, possibly
missing target `GHF` (`none` = NaN) and possibly missing covariates. -/
structure GRow where
  lon : ℝ
  lat : ℝ
  ghf : Option ℝ
  covs : List (Option ℝ)

/-- The `GHF_radial_X` cell of a record: the Gaussian estimate from anchor
`point` at the record's haversine distance to `(point.lon, point.lat)`. -/
noncomputable def anchor_estimate (point : Anchor) (row : GRow) : Option ℝ :=
  anchor_estimate_at point (_haversine (point.lon, point.lat) row.lon row.lat)

/-- `DataFrame.mean(skipna=True, axis=1)` over a list of cells: the mean of
the present values, NaN when every cell is missing. -/
noncomputable def nanmean (cells : List (Option ℝ)) : Option ℝ :=
  if cells.reduceOption.length = 0 then none
  else some (cells.reduceOption.sum / cells.reduceOption.length)

/-- `data[ghf_cols + ['GHF']]` of one record: its four anchor-estimate cells
followed by its original target cell (line 116). -/
noncomputable def ghf_sources (row : GRow) : List (Option ℝ) :=
  GREENLAND.map (fun point => anchor_estimate point row) ++ [row.ghf]

/-- `data['GHF'] = data[ghf_cols + ['GHF']].mean(skipna=True, axis=1)`
(line 116) for one record. -/
noncomputable def impute_row (row : GRow) : GRow :=
  { row with ghf := nanmean (ghf_sources row) }

/-- `data.loc[data.GHF == 135.0, 'GHF'] = 0` (line 119) for one record. -/
noncomputable def force135 (row : GRow) : GRow :=
  if row.ghf = some 135 then { row with ghf := some 0 } else row

/-- `data.loc[data.GHF == 0, 'GHF'] = np.nan` (line 123) for one record. -/
noncomputable def zero_to_nan (row : GRow) : GRow :=
  if row.ghf = some 0 then { row with ghf := none } else row

/-- The rows `dropna` (line 124) keeps: no missing cell anywhere. -/
def row_complete (row : GRow) : Bool :=
  row.ghf.isSome && row.covs.all Option.isSome

/-- `fill_in_greenland_GHF(data)` (lines 89-125), value level: each record's
target becomes the skipna mean of its anchor estimates and its original
target; a resulting target equal to 135.0 is forced to 0 (line 119);
`gris_unknown` is the frame of records with target 0 (line 122); those
records' targets are then set to NaN (line 123) and `dropna` removes every
record with any remaining missing cell (line 124), leaving the known frame.
(The in-place effects on the caller's frame are modelled separately by
`fill_in_greenland_GHF_state`.) -/
noncomputable def fill_in_greenland_GHF (data : List GRow) : List GRow × List GRow :=
  let data1 := data.map impute_row
  let data2 := data1.map force135
  let gris_unknown := data2.filter (fun row => decide (row.ghf = some 0))
  let data3 := data2.map zero_to_nan
  let known := data3.filter row_complete
  (known, gris_unknown)

/- ### Sweep loops (`average_rmse`, `eval_prediction`, `_predict`,
`random_prediction_ctr`) -/

/-- `X.drop(['Latitude_1', 'Longitude_1'], axis=1)`: the covariate columns
actually given to the regressor. -/
def dropLatLon (x : Features) : List ℝ := x.covs

/-- `np.mean` of a vector. -/
noncomputable def mean (l : List ℝ) : ℝ := l.sum / l.length

/-- `sklearn.metrics.mean_squared_error(a, b)`: the mean of the pointwise
squared differences. -/
noncomputable def mean_squared_error (a b : List ℝ) : ℝ :=
  (List.zipWith (fun x y => (x - y) ^ 2) a b).sum / a.length

/-- The recursion of `average_rmse`
(src/global_learning_gb_circles_gaussian.py lines 277-291) over its sampled
centers: each center is split; a center whose test set is empty is skipped
(`if len(X_test) == 0: continue`); otherwise the regressor (the abstract
fit-and-predict collaborator `fitpredict`) is trained and the RMSE on the
test set is collected. -/
noncomputable def average_rmse_go
    (fitpredict : List (List ℝ) → List ℝ → List (List ℝ) → List ℝ)
    (shuffle : List Row → List Row) (data : List Row) (test_size : ℚ)
    (max_dist : ℝ) : List (ℝ × ℝ) → Except String (List ℝ)
  | [] => .ok []
  | center :: rest =>
    match split shuffle data center test_size max_dist with
    | .error e => .error e
    | .ok (X_train, y_train, X_test, y_test) =>
      if X_test.length = 0 then
        average_rmse_go fitpredict shuffle data test_size max_dist rest
      else
        match average_rmse_go fitpredict shuffle data test_size max_dist rest with
        | .error e => .error e
        | .ok rmses =>
          .ok (Real.sqrt (mean_squared_error y_test
            (fitpredict (X_train.map dropLatLon) y_train (X_test.map dropLatLon)))
            :: rmses)

/-- `average_rmse(data, test_size, max_dist, ncenters)`: the mean of the
collected RMSEs (`sum(rmses) / len(rmses)`, a `ZeroDivisionError` when every
center was skipped). The `ncenters` random centers are the explicit
`centers` list. -/
noncomputable def average_rmse
    (fitpredict : List (List ℝ) → List ℝ → List (List ℝ) → List ℝ)
    (shuffle : List Row → List Row) (data : List Row) (test_size : ℚ)
    (max_dist : ℝ) (centers : List (ℝ × ℝ)) : Except String ℝ :=
  match average_rmse_go fitpredict shuffle data test_size max_dist centers with
  | .error e => .error e
  | .ok rmses =>
    if rmses.length = 0 then .error "ZeroDivisionError"
    else .ok (rmses.sum / rmses.length)

/-- `eval_prediction(data, t, radius, center)` (src/error_analysis.py lines
13-21): split, `assert not X_test.empty` (an `AssertionError` when the test
set is empty), train and predict, and summarise the error. `error_summary`
comes from the `ghf_prediction` module, which is not among the repository's
staged files; it is passed as an abstract collaborator computing the
`(r2, rmse)` pair of the spec. -/
noncomputable def eval_prediction
    (fitpredict : List (List ℝ) → List ℝ → List (List ℝ) → List ℝ)
    (error_summary : List ℝ → List ℝ → ℝ × ℝ)
    (shuffle : List Row → List Row) (data : List Row) (t : ℚ) (radius : ℝ)
    (center : ℝ × ℝ) : Except String (ℝ × ℝ) :=
  match split shuffle data center t radius with
  | .error e => .error e
  | .ok (X_train, y_train, X_test, y_test) =>
    if X_test.length = 0 then .error "AssertionError: not X_test.empty"
    else .ok (error_summary y_test
      (fitpredict (X_train.map dropLatLon) y_train (X_test.map dropLatLon)))

/-- The `(t, center)` double loop of `plot_performance_analysis`
(src/error_analysis.py lines 48-57) for one radius: every configuration is
evaluated with `eval_prediction`; an exception raised there propagates and
aborts the sweep. -/
noncomputable def eval_prediction_sweep
    (fitpredict : List (List ℝ) → List ℝ → List (List ℝ) → List ℝ)
    (error_summary : List ℝ → List ℝ → ℝ × ℝ)
    (shuffle : List Row → List Row) (data : List Row) (radius : ℝ) :
    List (ℚ × (ℝ × ℝ)) → Except String (List (ℝ × ℝ))
  | [] => .ok []
  | tc :: rest =>
    match eval_prediction fitpredict error_summary shuffle data tc.1 radius tc.2 with
    | .error e => .error e
    | .ok r =>
      match eval_prediction_sweep fitpredict error_summary shuffle data radius rest with
      | .error e => .error e
      | .ok rs => .ok (r :: rs)

/-- The inner `_predict(X_train, y_train, X_test, center, noise_amp)` of
`plot_sensitivity_analysis` (src/error_analysis.py lines 90-98): Gaussian
noise of amplitude `noise_amp` — standard deviation
`mean(y_train) * noise_amp * sqrt(pi/2)`, the unit draws of
`np.random.randn(len(y_train))` being the explicit `randn` stream — is added
to the training target before training and predicting. The regressor
(`ghf_prediction.train_regressor`, not among the staged files) is the
abstract deterministic fit-and-predict collaborator `fitpredict`, per the
spec's seeded-reproducibility requirement. -/
noncomputable def _predict
    (fitpredict : List (List ℝ) → List ℝ → List (List ℝ) → List ℝ)
    (X_train : List Features) (y_train : List ℝ) (X_test : List Features)
    (center : ℝ × ℝ) (noise_amp : ℝ) (randn : ℕ → ℝ) : List ℝ :=
  fitpredict (X_train.map dropLatLon)
    (List.zipWith (fun y n => y + n) y_train
      ((List.range y_train.length).map
        (fun i => mean y_train * noise_amp * Real.sqrt (Real.pi / 2) * randn i)))
    (X_test.map dropLatLon)

/-- Python 2 `round(x, 2)`: rounding to two decimals, halves away from
zero. -/
noncomputable def pyround2 (x : ℝ) : ℝ :=
  if 0 ≤ x then ((⌊x * 100 + 1 / 2⌋ : ℤ) : ℝ) / 100
  else -(((⌊-x * 100 + 1 / 2⌋ : ℤ) : ℝ) / 100)

/-- The sampling loop of `random_prediction_ctr` (src/error_analysis.py
lines 23-30) over the explicit random draws `samples` (indices into the
candidate frame, one per `cands.sample(n=1)`; the unbounded `while True` is
modelled by exhausting the finite draw list). -/
noncomputable def random_prediction_ctr_go (data : List Row) (radius : ℝ)
    (min_points : ℕ) (cands : List Row) : List ℕ → Option (ℝ × ℝ)
  | [] => none
  | i :: rest =>
    match cands.get? i with
    | none => none
    | some row =>
      if min_points ≤ ((split_by_distance data (row.lon, row.lat) radius).1).length
      then some (pyround2 row.lon, pyround2 row.lat)
      else random_prediction_ctr_go data radius min_points cands rest

/-- `random_prediction_ctr(data, radius, min_points=100)`: candidate centers
are the rows with `Latitude_1 > 45`, `Longitude_1 > -100` and
`Longitude_1 < 50`; rows are sampled until one yields at least `min_points`
rows of `data` strictly within `radius`, and its coordinates, rounded to two
decimals, are returned. -/
noncomputable def random_prediction_ctr (data : List Row) (radius : ℝ)
    (min_points : ℕ) (samples : List ℕ) : Option (ℝ × ℝ) :=
  random_prediction_ctr_go data radius min_points
    (data.filter (fun row =>
      decide (45 < row.lat) && decide (-100 < row.lon) && decide (row.lon < 50)))
    samples

/- ### The in-place effects on the caller's DataFrame (C8) -/

/-- A pandas DataFrame as the callers see it: an ordered column-name list
and row-major cells (`none` = NaN). -/
structure Frame where
  cols : List String
  rows : List (List (Option ℝ))

/-- The position of a column name, `none` when absent. -/
def colIdx : List String → String → Option ℕ
  | [], _ => none
  | c :: cs, name => if c = name then some 0 else (colIdx cs name).map (· + 1)

/-- `row[name]` of one row under a column list (NaN when absent). -/
def getCell (cols : List String) (row : List (Option ℝ)) (name : String) : Option ℝ :=
  match colIdx cols name with
  | none => none
  | some i => (row.get? i).getD none

/-- `df[name] = vals`: overwrite the column in place when it exists,
append a new column otherwise. -/
def setCol (f : Frame) (name : String) (vals : List (Option ℝ)) : Frame :=
  match colIdx f.cols name with
  | some i => ⟨f.cols, List.zipWith (fun row v => row.set i v) f.rows vals⟩
  | none => ⟨f.cols ++ [name], List.zipWith (fun row v => row ++ [v]) f.rows vals⟩

/-- `df.drop(name, axis=1, inplace=True)`. -/
def dropCol (f : Frame) (name : String) : Frame :=
  match colIdx f.cols name with
  | some i => ⟨f.cols.eraseIdx i, f.rows.map (fun row => row.eraseIdx i)⟩
  | none => f

/-- `df.loc[cond, target] = v`: set the target cell of every row satisfying
`cond`. -/
def locSetCol (f : Frame) (cond : List (Option ℝ) → Bool) (target : String)
    (v : Option ℝ) : Frame :=
  match colIdx f.cols target with
  | none => f
  | some i => ⟨f.cols, f.rows.map (fun row => if cond row then row.set i v else row)⟩

/-- A NaN-aware strict `>` on a cell (pandas comparisons with NaN are
false). -/
noncomputable def cellGt (c : Option ℝ) (x : ℝ) : Bool :=
  match c with
  | some d => decide (x < d)
  | none => false

/-- `haversine_distance(df, center)` read off a frame's `Longitude_1` /
`Latitude_1` columns. -/
noncomputable def frame_haversine (f : Frame) (center : ℝ × ℝ) : List (Option ℝ) :=
  f.rows.map (fun row =>
    match getCell f.cols row "Longitude_1", getCell f.cols row "Latitude_1" with
    | some lon, some lat => some (_haversine center lon lat)
    | _, _ => none)

/-- The net in-place effect of `split_by_distance` (lines 129-136) on the
caller's frame: the temporary `_distance` column is assigned
(`data['_distance'] = haversine_distance(data, center)`) and then dropped in
place (`data.drop('_distance', axis=1, inplace=True)`); the `within` /
`beyond` results are new frames. -/
noncomputable def split_by_distance_state (f : Frame) (center : ℝ × ℝ)
    (radius : ℝ) : Frame :=
  dropCol (setCol f "_distance" (frame_haversine f center)) "_distance"

/-- The net in-place effect of `split` (lines 158-166) on the caller's
frame: only its `split_by_distance` call touches the argument
(`train_test_split`, `concat` and `drop('GHF', axis=1)` all produce new
frames). -/
noncomputable def split_state (f : Frame) (center : ℝ × ℝ) (max_dist : ℝ) : Frame :=
  split_by_distance_state f center max_dist

/-- One iteration of the `GREENLAND.iterrows()` loop of
`fill_in_greenland_GHF` (lines 98-114) as it mutates the argument:
`data[dist_col] = haversine_distance(data, (point.lon, point.lat))`,
`data[ghf_col] = gauss(point.ghf, row[dist_col], point.rad)` per row, and
`data.loc[data[dist_col] > max_ice_core_dist, ghf_col] = np.nan`. -/
noncomputable def fill_in_anchor_state (f : Frame) (point : Anchor) : Frame :=
  let f1 := setCol f ("distance_" ++ point.core) (frame_haversine f (point.lon, point.lat))
  let f2 := setCol f1 ("GHF_radial_" ++ point.core)
    (f1.rows.map (fun row => (getCell f1.cols row ("distance_" ++ point.core)).map
      (fun d => gauss point.ghf d point.rad)))
  locSetCol f2
    (fun row => cellGt (getCell f2.cols row ("distance_" ++ point.core)) max_ice_core_dist)
    ("GHF_radial_" ++ point.core) none

/-- The caller-visible final state of the argument of
`fill_in_greenland_GHF` (lines 89-125): the anchor loop's column
assignments followed by the in-place `GHF` overwrite of line 116; the
subsequent `data = data.drop(...)` (line 117) rebinds a new frame, so the
dropped distance/estimate columns and the original `GHF` values are NOT
restored on the caller's object. -/
noncomputable def fill_in_greenland_GHF_state (f : Frame) : Frame :=
  let fl := GREENLAND.foldl fill_in_anchor_state f
  setCol fl "GHF" (fl.rows.map (fun row =>
    nanmean ((GREENLAND.map
      (fun point => getCell fl.cols row ("GHF_radial_" ++ point.core)))
      ++ [getCell fl.cols row "GHF"])))

/-- The columns `fill_in_greenland_GHF` leaves behind on its argument, in
assignment order. -/
def fillin_new_cols : List String :=
  ["distance_GRIP", "GHF_radial_GRIP", "distance_GISP2", "GHF_radial_GISP2",
   "distance_DYE3", "GHF_radial_DYE3", "distance_NGRIP", "GHF_radial_NGRIP"]

/- ### Helper lemmas about the distance filters -/

theorem sin_sq_sub_swap (a b : ℝ) :
    Real.sin ((a - b) / 2) ^ 2 = Real.sin ((b - a) / 2) ^ 2 := by
  rw [show (a - b) / 2 = -((b - a) / 2) by ring, Real.sin_neg, neg_sq]

theorem _haversine_self (lon lat : ℝ) : _haversine (lon, lat) lon lat = 0 := by
  simp [_haversine]

theorem _haversine_comm (lon1 lat1 lon2 lat2 : ℝ) :
    _haversine (lon1, lat1) lon2 lat2 = _haversine (lon2, lat2) lon1 lat1 := by
  unfold _haversine
  rw [sin_sq_sub_swap (radians lat2) (radians lat1),
    sin_sq_sub_swap (radians lon2) (radians lon1),
    mul_comm (Real.cos (radians lat1)) (Real.cos (radians lat2))]

/-- C9: the haversine distance from a center to a point with the same
coordinates is exactly 0, and the distance is symmetric under swapping the
center and the point. -/
theorem haversine_distance_self_and_symm (lon lat lon2 lat2 ghf : ℝ) (covs : List ℝ) :
    haversine_distance [⟨lon, lat, ghf, covs⟩] (lon, lat) = [0] ∧
    _haversine (lon, lat) lon2 lat2 = _haversine (lon2, lat2) lon lat := by
  constructor
  · simp [haversine_distance, _haversine_self]
  · exact _haversine_comm lon lat lon2 lat2

theorem filter_lt_gt_eq_length (f : Row → ℝ) (R : ℝ) (l : List Row) :
    (l.filter (fun a => decide (f a < R))).length
      + (l.filter (fun a => decide (R < f a))).length
      + (l.filter (fun a => decide (f a = R))).length = l.length := by
  induction l with
  | nil => simp
  | cons a t ih =>
    rcases lt_trichotomy (f a) R with h | h | h
    · simp only [List.filter_cons, decide_eq_true_eq, if_pos h,
        if_neg (lt_asymm h), if_neg (ne_of_lt h), List.length_cons]
      omega
    · simp only [List.filter_cons, decide_eq_true_eq, if_pos h,
        if_neg (not_lt.mpr h.le), if_neg (not_lt.mpr h.ge), List.length_cons]
      omega
    · simp only [List.filter_cons, decide_eq_true_eq, if_pos h,
        if_neg (lt_asymm h), if_neg (ne_of_gt h), List.length_cons]
      omega

/-- C1: `split_by_distance` returns `(within, beyond)`: `within` holds exactly
the rows at haversine distance strictly less than `radius`, `beyond` exactly
those strictly beyond, the two are disjoint, rows exactly at distance `radius`
fall in neither, and `len within + len beyond + len boundary = len data`. -/
theorem split_by_distance_partition (data : List Row) (center : ℝ × ℝ) (radius : ℝ) :
    (∀ row, row ∈ (split_by_distance data center radius).1 ↔
      row ∈ data ∧ _haversine center row.lon row.lat < radius) ∧
    (∀ row, row ∈ (split_by_distance data center radius).2 ↔
      row ∈ data ∧ radius < _haversine center row.lon row.lat) ∧
    (∀ row, row ∈ (split_by_distance data center radius).1 →
      row ∉ (split_by_distance data center radius).2) ∧
    (∀ row, _haversine center row.lon row.lat = radius →
      row ∉ (split_by_distance data center radius).1 ∧
      row ∉ (split_by_distance data center radius).2) ∧
    (split_by_distance data center radius).1.length
      + (split_by_distance data center radius).2.length
      + (data.filter (fun row =>
          decide (_haversine center row.lon row.lat = radius))).length
      = data.length := by
  have hmem1 : ∀ row, row ∈ (split_by_distance data center radius).1 ↔
      row ∈ data ∧ _haversine center row.lon row.lat < radius := by
    intro row
    simp [split_by_distance, List.mem_filter]
  have hmem2 : ∀ row, row ∈ (split_by_distance data center radius).2 ↔
      row ∈ data ∧ radius < _haversine center row.lon row.lat := by
    intro row
    simp [split_by_distance, List.mem_filter]
  refine ⟨hmem1, hmem2, ?_, ?_, ?_⟩
  · intro row h1 h2
    exact lt_asymm ((hmem1 row).mp h1).2 ((hmem2 row).mp h2).2
  · intro row heq
    constructor
    · intro h1
      exact absurd ((hmem1 row).mp h1).2 (by simp [heq])
    · intro h2
      exact absurd ((hmem2 row).mp h2).2 (by simp [heq])
  · exact filter_lt_gt_eq_length (fun row => _haversine center row.lon row.lat) radius data

/-- C2: for `0 < f < 1` and a `shuffle` that permutes its input, `split`
returns the four lists feature/target projections of a train row list and a
test row list, where the test rows are `ceil(f * |within|)` rows drawn from
the within-radius rows, the train rows are the beyond-radius rows together
with the remaining within-radius rows, and the train/test row counts add up
to `|within| + |beyond|`. -/
theorem split_partitions (shuffle : List Row → List Row) (data : List Row)
    (center : ℝ × ℝ) (f : ℚ) (max_dist : ℝ)
    (hshuffle : ∀ l, (shuffle l).Perm l) (hf0 : 0 < f) (hf1 : f < 1) :
    ∃ tr te : List Row,
      split shuffle data center f max_dist =
        .ok (tr.map dropGHF, tr.map Row.ghf, te.map dropGHF, te.map Row.ghf) ∧
      te.length = ⌈f * ((split_by_distance data center max_dist).1.length : ℚ)⌉₊ ∧
      te.length + tr.length = (split_by_distance data center max_dist).1.length
        + (split_by_distance data center max_dist).2.length ∧
      te.Subperm (split_by_distance data center max_dist).1 ∧
      ∃ rest : List Row,
        tr = (split_by_distance data center max_dist).2 ++ rest ∧
        (te ++ rest).Perm (split_by_distance data center max_dist).1 := by
  set w := (split_by_distance data center max_dist).1 with hw
  set b := (split_by_distance data center max_dist).2 with hb
  have hperm := hshuffle w
  have hlen : (shuffle w).length = w.length := hperm.length_eq
  set k := ⌈f * (w.length : ℚ)⌉₊ with hk
  have hkle : k ≤ w.length := by
    rw [hk]
    refine Nat.ceil_le.mpr ?_
    calc f * (w.length : ℚ) ≤ 1 * (w.length : ℚ) := by
          exact mul_le_mul_of_nonneg_right hf1.le (by positivity)
      _ = (w.length : ℚ) := one_mul _
  refine ⟨b ++ (shuffle w).drop k, (shuffle w).take k, ?_, ?_, ?_, ?_, ?_⟩
  · unfold split train_test_split
    rw [if_neg (by push_neg; exact ⟨hf0.le, hf1⟩)]
    simp only [← hw, ← hb, hlen, ← hk]
  · simp [List.length_take, hlen, hkle, ← hk]
  · simp only [List.length_append, List.length_take, List.length_drop, hlen]
    omega
  · exact ((shuffle w).take_sublist k).subperm.trans hperm.subperm
  · exact ⟨(shuffle w).drop k, rfl, by
      rw [List.take_append_drop]
      exact hperm⟩

/-- C2 witness: the concrete instance `shuffle = id`, `data = []`,
`center = (0, 0)`, `f = 1/2`, `max_dist = 3500`. -/
theorem split_partitions_witness :
    ∃ tr te : List Row,
      split id [] (0, 0) (1/2) 3500 =
        .ok (tr.map dropGHF, tr.map Row.ghf, te.map dropGHF, te.map Row.ghf) ∧
      te.length = ⌈(1/2 : ℚ) * ((split_by_distance [] (0, 0) 3500).1.length : ℚ)⌉₊ ∧
      te.length + tr.length = (split_by_distance [] (0, 0) 3500).1.length
        + (split_by_distance [] (0, 0) 3500).2.length ∧
      te.Subperm (split_by_distance [] (0, 0) 3500).1 ∧
      ∃ rest : List Row,
        tr = (split_by_distance [] (0, 0) 3500).2 ++ rest ∧
        (te ++ rest).Perm (split_by_distance [] (0, 0) 3500).1 :=
  split_partitions id [] (0, 0) (1/2) 3500 (fun l => List.Perm.refl l)
    (by norm_num) (by norm_num)

/-- C3 counterexample: with an empty dataset no row lies strictly within
`max_dist = 3500` of the center, yet `split` raises nothing: it returns a
normal result whose test set is empty (the repository's sklearn
`train_test_split` accepts the empty frame, which is why `average_rmse`
guards `len(X_test) == 0` and `eval_prediction` asserts
`not X_test.empty`). -/
theorem split_empty_inside_returns_ok :
    split id [] (0, 0) (3/10) 3500 = .ok ([], [], [], []) := by
  unfold split train_test_split
  norm_num [split_by_distance]

/-- C3 amended: when no row of the dataset lies strictly within `max_dist`
of the center (and `0 ≤ test_size < 1`, `shuffle` a permutation), `split`
does not raise: it returns the beyond-radius rows as the training set and an
empty test set. -/
theorem split_empty_inside_returns (shuffle : List Row → List Row) (data : List Row)
    (center : ℝ × ℝ) (f : ℚ) (max_dist : ℝ)
    (hshuffle : ∀ l, (shuffle l).Perm l) (hf0 : 0 ≤ f) (hf1 : f < 1)
    (hempty : (split_by_distance data center max_dist).1 = []) :
    split shuffle data center f max_dist =
      .ok ((split_by_distance data center max_dist).2.map dropGHF,
           (split_by_distance data center max_dist).2.map Row.ghf, [], []) := by
  have hsh : shuffle (split_by_distance data center max_dist).1 = [] := by
    rw [hempty]
    exact List.Perm.eq_nil ((hshuffle []).symm).symm
  unfold split train_test_split
  rw [if_neg (by push_neg; exact ⟨hf0, hf1⟩)]
  simp [hsh]

/-- C3 amended witness: the empty dataset, `shuffle = id`, `f = 3/10`. -/
theorem split_empty_inside_returns_witness :
    split id [] (0, 0) (3/10) 3500 =
      .ok ((split_by_distance [] (0, 0) 3500).2.map dropGHF,
           (split_by_distance [] (0, 0) 3500).2.map Row.ghf, [], []) :=
  split_empty_inside_returns id [] (0, 0) (3/10) 3500 (fun l => List.Perm.refl l)
    (by norm_num) (by norm_num) (by simp [split_by_distance])

/- ### Theorems about the imputation (C4, C5) -/

/-- C4 counterexample: `GRIP` is an anchor of `GREENLAND` with known value
`v = 51.3` and decay radius `r = 1000`; the per-record estimate at distance
`d = r = 1000` is missing (NaN, since `1000 > max_ice_core_dist = 150`),
not `v / e` as the claim states for every anchor. -/
theorem anchor_estimate_at_GRIP_rad :
    (⟨72.58, -37.64, 51.3, 1000, "GRIP"⟩ : Anchor) ∈ GREENLAND ∧
    anchor_estimate_at ⟨72.58, -37.64, 51.3, 1000, "GRIP"⟩ 1000 = none ∧
    (none : Option ℝ) ≠ some (51.3 / Real.exp 1) := by
  refine ⟨by simp [GREENLAND], ?_, by simp⟩
  unfold anchor_estimate_at max_ice_core_dist
  rw [if_pos (by norm_num)]

/-- C4 amended: the per-record anchor estimate equals
`v / exp((d / r)^2)` whenever the distance `d` is at most the 150 km cutoff
and is missing whenever `d` exceeds it; in particular it equals `v` exactly
at `d = 0`, and it equals `v / e` at `d = r` provided the decay radius is
itself within the cutoff (`r ≤ 150`, as for NGRIP) — for an anchor whose
decay radius exceeds the cutoff, the estimate at `d = r` is missing. -/
theorem anchor_estimate_at_spec (point : Anchor) (d : ℝ) :
    (d ≤ max_ice_core_dist →
      anchor_estimate_at point d = some (point.ghf / Real.exp ((d / point.rad) ^ 2))) ∧
    (max_ice_core_dist < d → anchor_estimate_at point d = none) ∧
    anchor_estimate_at point 0 = some point.ghf ∧
    (point.rad ≠ 0 → point.rad ≤ max_ice_core_dist →
      anchor_estimate_at point point.rad = some (point.ghf / Real.exp 1)) ∧
    (max_ice_core_dist < point.rad → anchor_estimate_at point point.rad = none) := by
  refine ⟨?_, ?_, ?_, ?_, ?_⟩
  · intro h
    rw [anchor_estimate_at, if_neg (not_lt.mpr h), gauss, div_pow]
  · intro h
    rw [anchor_estimate_at, if_pos h]
  · rw [anchor_estimate_at, if_neg (by norm_num [max_ice_core_dist]), gauss]
    norm_num
  · intro hrad h
    rw [anchor_estimate_at, if_neg (not_lt.mpr h), gauss,
      div_self (pow_ne_zero 2 hrad)]
  · intro h
    rw [anchor_estimate_at, if_pos h]

/-- C4 amended witness: the NGRIP anchor (value 135, decay radius 150) at
distances 100, 200, 0 and `r = 150`, and the GISP2 anchor (decay radius
1000) at `d = r = 1000`. -/
theorem anchor_estimate_at_spec_witness :
    anchor_estimate_at ⟨75.10, -42.32, 135, 150, "NGRIP"⟩ 100
      = some (135 / Real.exp ((100 / 150) ^ 2)) ∧
    anchor_estimate_at ⟨75.10, -42.32, 135, 150, "NGRIP"⟩ 200 = none ∧
    anchor_estimate_at ⟨75.10, -42.32, 135, 150, "NGRIP"⟩ 0 = some 135 ∧
    anchor_estimate_at ⟨75.10, -42.32, 135, 150, "NGRIP"⟩ 150
      = some (135 / Real.exp 1) ∧
    anchor_estimate_at ⟨72.60, -38.50, 60, 1000, "GISP2"⟩ 1000 = none :=
  ⟨(anchor_estimate_at_spec ⟨75.10, -42.32, 135, 150, "NGRIP"⟩ 100).1
      (by norm_num [max_ice_core_dist]),
   (anchor_estimate_at_spec ⟨75.10, -42.32, 135, 150, "NGRIP"⟩ 200).2.1
      (by norm_num [max_ice_core_dist]),
   (anchor_estimate_at_spec ⟨75.10, -42.32, 135, 150, "NGRIP"⟩ 0).2.2.1,
   (anchor_estimate_at_spec ⟨75.10, -42.32, 135, 150, "NGRIP"⟩ 0).2.2.2.1
      (by norm_num) (by norm_num [max_ice_core_dist]),
   (anchor_estimate_at_spec ⟨72.60, -38.50, 60, 1000, "GISP2"⟩ 0).2.2.2.2
      (by norm_num [max_ice_core_dist])⟩

theorem reduceOption_nil_iff {α : Type} (l : List (Option α)) :
    l.reduceOption = [] ↔ ∀ c ∈ l, c = none := by
  induction l with
  | nil => simp
  | cons a t ih =>
    cases a <;>
      simp [List.reduceOption_cons_of_none, List.reduceOption_cons_of_some, ih]

theorem nanmean_eq_none_iff (cells : List (Option ℝ)) :
    nanmean cells = none ↔ ∀ c ∈ cells, c = none := by
  rw [← reduceOption_nil_iff, ← List.length_eq_zero]
  unfold nanmean
  by_cases h : cells.reduceOption.length = 0
  · simp [h]
  · simp [h]

theorem force135_impute (s : GRow) :
    force135 (impute_row s) =
      if nanmean (ghf_sources s) = some 135 ∨ nanmean (ghf_sources s) = some 0
      then { s with ghf := some 0 } else { s with ghf := nanmean (ghf_sources s) } := by
  unfold force135 impute_row
  by_cases h135 : nanmean (ghf_sources s) = some 135
  · simp [h135]
  · by_cases h0 : nanmean (ghf_sources s) = some 0
    · simp [h135, h0]
    · simp [h135, h0]

theorem zero_to_nan_force135_impute (s : GRow) :
    zero_to_nan (force135 (impute_row s)) =
      if nanmean (ghf_sources s) = some 135 ∨ nanmean (ghf_sources s) = some 0
      then { s with ghf := none } else { s with ghf := nanmean (ghf_sources s) } := by
  rw [force135_impute]
  by_cases h : nanmean (ghf_sources s) = some 135 ∨ nanmean (ghf_sources s) = some 0
  · rw [if_pos h, if_pos h]
    simp [zero_to_nan]
  · rw [if_neg h, if_neg h]
    push_neg at h
    simp [zero_to_nan, h.2]

/-- C5: `fill_in_greenland_GHF` returns `(known, unknown)` where: `unknown`
holds exactly the records whose imputed target (the skipna mean of the
anchor estimates and the original target) is the sentinel 135.0 — then
forced to 0 — or is already 0; `known` holds exactly the remaining records
whose imputed target is present (and neither 0 nor the sentinel) and whose
covariates are all present, records with any remaining missing cell being
dropped; and the imputed target of a record is missing exactly when its
original target and all four anchor estimates are missing. -/
theorem fill_in_greenland_GHF_partition (data : List GRow) :
    (∀ row, row ∈ (fill_in_greenland_GHF data).2 ↔
      ∃ s ∈ data,
        (nanmean (ghf_sources s) = some 135 ∨ nanmean (ghf_sources s) = some 0) ∧
        row = { s with ghf := some 0 }) ∧
    (∀ row, row ∈ (fill_in_greenland_GHF data).1 ↔
      ∃ s ∈ data,
        nanmean (ghf_sources s) ≠ none ∧
        nanmean (ghf_sources s) ≠ some 0 ∧
        nanmean (ghf_sources s) ≠ some 135 ∧
        (∀ c ∈ s.covs, c ≠ none) ∧
        row = { s with ghf := nanmean (ghf_sources s) }) ∧
    (∀ s : GRow, nanmean (ghf_sources s) = none ↔
      s.ghf = none ∧ ∀ point ∈ GREENLAND, anchor_estimate point s = none) := by
  refine ⟨?_, ?_, ?_⟩
  · intro row
    simp only [fill_in_greenland_GHF, List.map_map, List.mem_filter, List.mem_map,
      decide_eq_true_eq, Function.comp, force135_impute]
    constructor
    · rintro ⟨⟨a, ha, heq⟩, hghf⟩
      by_cases hD : nanmean (ghf_sources a) = some 135 ∨ nanmean (ghf_sources a) = some 0
      · rw [if_pos hD] at heq
        exact ⟨a, ha, hD, heq.symm⟩
      · rw [if_neg hD] at heq
        rw [← heq] at hghf
        exact absurd (Or.inr hghf) hD
    · rintro ⟨s, hs, hD, hrow⟩
      refine ⟨⟨s, hs, ?_⟩, ?_⟩
      · rw [if_pos hD, hrow]
      · rw [hrow]
  · intro row
    simp only [fill_in_greenland_GHF, List.map_map, List.mem_filter, List.mem_map,
      Function.comp, zero_to_nan_force135_impute, row_complete, Bool.and_eq_true,
      List.all_eq_true, Option.isSome_iff_ne_none]
    constructor
    · rintro ⟨⟨a, ha, heq⟩, hghf, hcovs⟩
      by_cases hD : nanmean (ghf_sources a) = some 135 ∨ nanmean (ghf_sources a) = some 0
      · rw [if_pos hD] at heq
        rw [← heq] at hghf
        exact absurd rfl hghf
      · rw [if_neg hD] at heq
        push_neg at hD
        rw [← heq] at hghf hcovs
        exact ⟨a, ha, hghf, hD.2, hD.1, hcovs, heq.symm⟩
    · rintro ⟨s, hs, hnone, h0, h135, hcovs, hrow⟩
      refine ⟨⟨s, hs, ?_⟩, ?_, ?_⟩
      · rw [if_neg (by push_neg; exact ⟨h135, h0⟩), hrow]
      · rw [hrow]
        exact hnone
      · rw [hrow]
        exact hcovs
  · intro s
    rw [nanmean_eq_none_iff]
    simp only [ghf_sources, List.forall_mem_append, List.forall_mem_map,
      List.forall_mem_singleton]
    exact and_comm

/- ### Theorems about the sweeps (C6, C7, C10) -/

theorem zipWith_add_replicate_zero (y : List ℝ) :
    List.zipWith (fun a b => a + b) y (List.replicate y.length 0) = y := by
  induction y with
  | nil => rfl
  | cons a t ih => simp [List.replicate_succ, ih]

theorem noise_column_zero (y : List ℝ) (g : ℕ → ℝ) :
    (List.range y.length).map
      (fun i => mean y * 0 * Real.sqrt (Real.pi / 2) * g i)
      = List.replicate y.length 0 := by
  rw [show (fun i => mean y * 0 * Real.sqrt (Real.pi / 2) * g i) = fun _ => (0 : ℝ)
    from funext fun i => by ring]
  rw [List.map_const', List.length_range]

theorem mean_squared_error_self (l : List ℝ) : mean_squared_error l l = 0 := by
  unfold mean_squared_error
  rw [List.zipWith_same]
  have : (l.map fun a => (a - a) ^ 2) = List.replicate l.length 0 := by
    rw [show (fun a : ℝ => (a - a) ^ 2) = fun _ => (0 : ℝ) from funext fun a => by ring,
      List.map_const']
  rw [this, List.sum_replicate, smul_zero, zero_div]

/-- C6: with noise amplitude 0 the injected noise column is identically
zero, so `_predict` returns the same prediction whatever unit normal draws
it is given — in particular it reproduces the zero-noise reference `y0` on
the same train/test split — and the RMSE between the two predictions,
normalized by the reference mean, is exactly 0. -/
theorem predict_zero_noise
    (fitpredict : List (List ℝ) → List ℝ → List (List ℝ) → List ℝ)
    (X_train : List Features) (y_train : List ℝ) (X_test : List Features)
    (center : ℝ × ℝ) (g g2 : ℕ → ℝ) :
    _predict fitpredict X_train y_train X_test center 0 g
      = _predict fitpredict X_train y_train X_test center 0 g2 ∧
    Real.sqrt (mean_squared_error
        (_predict fitpredict X_train y_train X_test center 0 g2)
        (_predict fitpredict X_train y_train X_test center 0 g))
      / mean (_predict fitpredict X_train y_train X_test center 0 g2) = 0 := by
  have hpred : ∀ h : ℕ → ℝ, _predict fitpredict X_train y_train X_test center 0 h
      = fitpredict (X_train.map dropLatLon) y_train (X_test.map dropLatLon) := by
    intro h
    unfold _predict
    rw [noise_column_zero, zipWith_add_replicate_zero]
  refine ⟨by rw [hpred, hpred], ?_⟩
  rw [hpred, hpred, mean_squared_error_self, Real.sqrt_zero, zero_div]

theorem average_rmse_go_skip
    (fitpredict : List (List ℝ) → List ℝ → List (List ℝ) → List ℝ)
    (shuffle : List Row → List Row) (data : List Row) (t : ℚ) (R : ℝ)
    (c : ℝ × ℝ) (cs1 cs2 : List (ℝ × ℝ))
    (X_train : List Features) (y_train y_test : List ℝ)
    (hsplit : split shuffle data c t R = .ok (X_train, y_train, [], y_test)) :
    average_rmse_go fitpredict shuffle data t R (cs1 ++ c :: cs2)
      = average_rmse_go fitpredict shuffle data t R (cs1 ++ cs2) := by
  induction cs1 with
  | nil =>
    simp [average_rmse_go, hsplit]
  | cons a l ih =>
    simp only [List.cons_append, average_rmse_go]
    split
    · rfl
    · split
      · exact ih
      · simp only [List.append_eq]
        rw [ih]

/-- C7 amended: in `average_rmse` a sampled center whose split yields zero
test points is skipped — it contributes nothing and the sweep over the
remaining centers gives the same aggregate — but in the error-analysis
sweeps `eval_prediction` asserts that the test set is nonempty, so such a
center raises an `AssertionError` instead of being skipped. -/
theorem sweep_zero_test_policy
    (fitpredict : List (List ℝ) → List ℝ → List (List ℝ) → List ℝ)
    (error_summary : List ℝ → List ℝ → ℝ × ℝ)
    (shuffle : List Row → List Row) (data : List Row) (t : ℚ) (R : ℝ)
    (c : ℝ × ℝ) (cs1 cs2 : List (ℝ × ℝ))
    (X_train : List Features) (y_train y_test : List ℝ)
    (hsplit : split shuffle data c t R = .ok (X_train, y_train, [], y_test)) :
    average_rmse fitpredict shuffle data t R (cs1 ++ c :: cs2)
      = average_rmse fitpredict shuffle data t R (cs1 ++ cs2) ∧
    eval_prediction fitpredict error_summary shuffle data t R c
      = .error "AssertionError: not X_test.empty" := by
  constructor
  · unfold average_rmse
    rw [average_rmse_go_skip fitpredict shuffle data t R c cs1 cs2
      X_train y_train y_test hsplit]
  · unfold eval_prediction
    rw [hsplit]
    simp

/-- C7 witness: the empty dataset with one sampled center `(0, 0)`: its
split has an empty test set, `average_rmse` skips it (both center lists
produce the same aggregate), and `eval_prediction` raises. -/
theorem sweep_zero_test_policy_witness :
    average_rmse (fun _ _ _ => ([] : List ℝ)) id ([] : List Row) (3/10) 3500
        [((0 : ℝ), (0 : ℝ))]
      = average_rmse (fun _ _ _ => ([] : List ℝ)) id ([] : List Row) (3/10) 3500 [] ∧
    eval_prediction (fun _ _ _ => ([] : List ℝ)) (fun _ _ => ((0 : ℝ), (0 : ℝ)))
        id ([] : List Row) (3/10) 3500 ((0 : ℝ), (0 : ℝ))
      = .error "AssertionError: not X_test.empty" :=
  sweep_zero_test_policy (fun _ _ _ => ([] : List ℝ)) (fun _ _ => ((0 : ℝ), (0 : ℝ)))
    id [] (3/10) 3500 ((0 : ℝ), (0 : ℝ)) [] [] [] [] []
    (by unfold split train_test_split; norm_num [split_by_distance])

/-- C7 counterexample: a performance-sweep configuration whose center
yields zero test points does not continue with the remaining
configurations: the whole sweep aborts with the `AssertionError` raised by
`eval_prediction`'s `assert not X_test.empty` (here: the empty dataset with
one `(t, center)` configuration). -/
theorem eval_prediction_sweep_aborts :
    eval_prediction_sweep (fun _ _ _ => ([] : List ℝ))
        (fun _ _ => ((0 : ℝ), (0 : ℝ))) id ([] : List Row) 3500
        [((3/10 : ℚ), ((1 : ℝ), (2 : ℝ)))]
      = .error "AssertionError: not X_test.empty" := by
  have hsplit : split id ([] : List Row) ((1 : ℝ), (2 : ℝ)) (3/10) 3500
      = .ok ([], [], [], []) := by
    unfold split train_test_split
    norm_num [split_by_distance]
  simp [eval_prediction_sweep, eval_prediction, hsplit]

theorem random_prediction_ctr_go_some (data : List Row) (radius : ℝ)
    (min_points : ℕ) (cands : List Row) (samples : List ℕ) (c : ℝ × ℝ)
    (h : random_prediction_ctr_go data radius min_points cands samples = some c) :
    ∃ row ∈ cands, c = (pyround2 row.lon, pyround2 row.lat) ∧
      min_points ≤ ((split_by_distance data (row.lon, row.lat) radius).1).length := by
  induction samples with
  | nil => exact absurd h (by simp [random_prediction_ctr_go])
  | cons i rest ih =>
    rw [random_prediction_ctr_go] at h
    cases hg : cands.get? i with
    | none => rw [hg] at h; exact absurd h (by simp)
    | some row =>
      simp only [hg] at h
      by_cases hlen :
          min_points ≤ ((split_by_distance data (row.lon, row.lat) radius).1).length
      · rw [if_pos hlen] at h
        exact ⟨row, List.get?_mem hg, (Option.some_injective _ h).symm, hlen⟩
      · rw [if_neg hlen] at h
        exact ih h

/-- C10: every center returned by `random_prediction_ctr` is the rounded
(two decimals) `(Longitude_1, Latitude_1)` of some row of the dataset
satisfying `Latitude_1 > 45`, `Longitude_1 > -100` and `Longitude_1 < 50`,
and the sampled (unrounded) center yields at least `min_points` rows of the
dataset strictly within the given radius. -/
theorem random_prediction_ctr_in_box (data : List Row) (radius : ℝ)
    (min_points : ℕ) (samples : List ℕ) (c : ℝ × ℝ)
    (h : random_prediction_ctr data radius min_points samples = some c) :
    ∃ row ∈ data, 45 < row.lat ∧ -100 < row.lon ∧ row.lon < 50 ∧
      c = (pyround2 row.lon, pyround2 row.lat) ∧
      min_points ≤ ((split_by_distance data (row.lon, row.lat) radius).1).length := by
  obtain ⟨row, hrow, hc, hlen⟩ := random_prediction_ctr_go_some _ _ _ _ _ _ h
  rw [List.mem_filter] at hrow
  obtain ⟨hmem, hbox⟩ := hrow
  simp only [Bool.and_eq_true, decide_eq_true_eq] at hbox
  exact ⟨row, hmem, hbox.1.1, hbox.1.2, hbox.2, hc, hlen⟩

/-- C10 witness: a one-row dataset whose row sits at `(lon, lat) = (0, 50)`
inside the geographic box; sampling it as center immediately succeeds
(its distance to itself is 0 < radius, giving one within-radius row), and
the returned center is the rounded row coordinates. -/
theorem random_prediction_ctr_in_box_witness :
    ∃ row ∈ [(⟨0, 50, 0, []⟩ : Row)], 45 < row.lat ∧ -100 < row.lon ∧ row.lon < 50 ∧
      ((0 : ℝ), (50 : ℝ)) = (pyround2 row.lon, pyround2 row.lat) ∧
      1 ≤ ((split_by_distance [(⟨0, 50, 0, []⟩ : Row)] (row.lon, row.lat) 1).1).length := by
  have hwithin : (split_by_distance [(⟨0, 50, 0, []⟩ : Row)] ((0 : ℝ), (50 : ℝ)) 1).1
      = [⟨0, 50, 0, []⟩] := by
    unfold split_by_distance
    rw [List.filter_cons, if_pos (by
      rw [decide_eq_true_eq]
      show _haversine ((0 : ℝ), (50 : ℝ)) (0 : ℝ) (50 : ℝ) < 1
      rw [_haversine_self]
      norm_num)]
    rfl
  have hround0 : pyround2 (0 : ℝ) = 0 := by
    rw [pyround2, if_pos le_rfl]
    norm_num
  have hround50 : pyround2 (50 : ℝ) = 50 := by
    have h5 : ⌊(50 : ℝ) * 100 + 1 / 2⌋ = (5000 : ℤ) := by
      rw [Int.floor_eq_iff]
      constructor <;> norm_num
    rw [pyround2, if_pos (by norm_num), h5]
    norm_num
  refine random_prediction_ctr_in_box [⟨0, 50, 0, []⟩] 1 1 [0] ((0 : ℝ), (50 : ℝ)) ?_
  unfold random_prediction_ctr random_prediction_ctr_go
  rw [List.filter_cons, if_pos (by
    simp only [Bool.and_eq_true, decide_eq_true_eq]
    norm_num)]
  show (if 1 ≤ ((split_by_distance [(⟨0, 50, 0, []⟩ : Row)] ((0 : ℝ), (50 : ℝ)) 1).1).length
    then some (pyround2 (0 : ℝ), pyround2 (50 : ℝ)) else _) = _
  rw [if_pos (by rw [hwithin]; norm_num), hround0, hround50]

/- ### Lemmas about the frame operations -/

theorem colIdx_none_iff (l : List String) (x : String) :
    colIdx l x = none ↔ x ∉ l := by
  induction l with
  | nil => simp [colIdx]
  | cons c cs ih =>
    by_cases hc : c = x
    · simp [colIdx, hc]
    · rw [colIdx, if_neg hc]
      simp only [Option.map_eq_none', ih, List.mem_cons, not_or]
      constructor
      · intro h
        exact ⟨fun hxc => hc hxc.symm, h⟩
      · intro h
        exact h.2

theorem colIdx_append_self (l : List String) (x : String) (h : x ∉ l) :
    colIdx (l ++ [x]) x = some l.length := by
  induction l with
  | nil => simp [colIdx]
  | cons c cs ih =>
    have hc : ¬(c = x) := fun hcx => h (by rw [hcx]; exact List.mem_cons_self x cs)
    have hx : x ∉ cs := fun hmem => h (List.mem_cons_of_mem c hmem)
    rw [List.cons_append, colIdx, if_neg hc, ih hx]
    simp

theorem setCol_cols_fresh (f : Frame) (name : String) (vals : List (Option ℝ))
    (h : name ∉ f.cols) : (setCol f name vals).cols = f.cols ++ [name] := by
  have hcol : colIdx f.cols name = none := (colIdx_none_iff _ _).mpr h
  simp [setCol, hcol]

theorem setCol_cols_mem (f : Frame) (name : String) (vals : List (Option ℝ))
    (h : name ∈ f.cols) : (setCol f name vals).cols = f.cols := by
  cases hcol : colIdx f.cols name with
  | none => exact absurd h ((colIdx_none_iff _ _).mp hcol)
  | some i => simp [setCol, hcol]

theorem locSetCol_cols (f : Frame) (cond : List (Option ℝ) → Bool) (target : String)
    (v : Option ℝ) : (locSetCol f cond target v).cols = f.cols := by
  cases hcol : colIdx f.cols target with
  | none => simp [locSetCol, hcol]
  | some i => simp [locSetCol, hcol]

theorem eraseIdx_append_length {α : Type} (l : List α) (x : α) :
    (l ++ [x]).eraseIdx l.length = l := by
  induction l with
  | nil => rfl
  | cons a t ih =>
    rw [List.cons_append, List.length_cons, List.eraseIdx_cons_succ, ih]

theorem map_eraseIdx_zipWith_append (n : ℕ) (rows : List (List (Option ℝ))) :
    ∀ vals : List (Option ℝ), (∀ row ∈ rows, row.length = n) →
      vals.length = rows.length →
      (List.zipWith (fun row v => row ++ [v]) rows vals).map
        (fun row => row.eraseIdx n) = rows := by
  induction rows with
  | nil => intro vals _ _; simp
  | cons r rt ih =>
    intro vals hrect hlen
    cases vals with
    | nil => simp at hlen
    | cons v vt =>
      simp only [List.zipWith_cons_cons, List.map_cons]
      have h1 : (r ++ [v]).eraseIdx n = r := by
        rw [← hrect r (List.mem_cons_self r rt)]
        exact eraseIdx_append_length r v
      rw [h1, ih vt (fun row hrow => hrect row (List.mem_cons_of_mem r hrow))
        (by simpa using hlen)]

theorem setCol_dropCol_fresh (f : Frame) (name : String) (vals : List (Option ℝ))
    (hfresh : name ∉ f.cols)
    (hrect : ∀ row ∈ f.rows, row.length = f.cols.length)
    (hvals : vals.length = f.rows.length) :
    dropCol (setCol f name vals) name = f := by
  have hcol : colIdx f.cols name = none := (colIdx_none_iff _ _).mpr hfresh
  have hset : setCol f name vals
      = ⟨f.cols ++ [name], List.zipWith (fun row v => row ++ [v]) f.rows vals⟩ := by
    simp [setCol, hcol]
  rw [hset]
  have hcol2 : colIdx (f.cols ++ [name]) name = some f.cols.length :=
    colIdx_append_self f.cols name hfresh
  simp only [dropCol, hcol2]
  rw [eraseIdx_append_length,
    map_eraseIdx_zipWith_append f.cols.length f.rows vals hrect hvals]

theorem split_by_distance_state_restores (f : Frame) (center : ℝ × ℝ) (radius : ℝ)
    (hdist : "_distance" ∉ f.cols)
    (hrect : ∀ row ∈ f.rows, row.length = f.cols.length) :
    split_by_distance_state f center radius = f := by
  unfold split_by_distance_state
  exact setCol_dropCol_fresh f "_distance" _ hdist hrect
    (by simp [frame_haversine])

theorem notmem_append_pair {x d g : String} {l : List String}
    (h1 : x ∉ l) (h2 : x ≠ d) (h3 : x ≠ g) : x ∉ l ++ [d, g] := by
  intro hmem
  rcases List.mem_append.mp hmem with hL | hR
  · exact h1 hL
  · rcases List.mem_cons.mp hR with h | h
    · exact h2 h
    · exact h3 (List.mem_singleton.mp h)

theorem fill_in_anchor_state_cols (f : Frame) (point : Anchor)
    (h1 : "distance_" ++ point.core ∉ f.cols)
    (h2 : "GHF_radial_" ++ point.core ∉ f.cols)
    (hne : ("GHF_radial_" ++ point.core) ≠ ("distance_" ++ point.core)) :
    (fill_in_anchor_state f point).cols
      = f.cols ++ ["distance_" ++ point.core, "GHF_radial_" ++ point.core] := by
  have hd : (setCol f ("distance_" ++ point.core)
      (frame_haversine f (point.lon, point.lat))).cols
      = f.cols ++ ["distance_" ++ point.core] := setCol_cols_fresh _ _ _ h1
  have hg : ("GHF_radial_" ++ point.core) ∉ (setCol f ("distance_" ++ point.core)
      (frame_haversine f (point.lon, point.lat))).cols := by
    rw [hd]
    simp only [List.mem_append, List.mem_singleton, not_or]
    exact ⟨h2, hne⟩
  simp only [fill_in_anchor_state]
  rw [locSetCol_cols, setCol_cols_fresh _ _ _ hg, hd, List.append_assoc]
  rfl

theorem fresh_after (f2 : Frame) (base : List String) (d g : String)
    (hcols : f2.cols = base ++ [d, g]) :
    ∀ x, x ∉ base → x ≠ d → x ≠ g → x ∉ f2.cols := by
  intro x h1 h2 h3
  rw [hcols]
  exact notmem_append_pair h1 h2 h3

theorem fill_in_fold_cols (f : Frame)
    (hfresh : ∀ name ∈ fillin_new_cols, name ∉ f.cols) :
    (GREENLAND.foldl fill_in_anchor_state f).cols = f.cols ++ fillin_new_cols := by
  simp only [GREENLAND, List.foldl_cons, List.foldl_nil]
  set A1 := fill_in_anchor_state f ⟨72.58, -37.64, 51.3, 1000, "GRIP"⟩ with hA1
  set A2 := fill_in_anchor_state A1 ⟨72.60, -38.50, 60, 1000, "GISP2"⟩ with hA2
  set A3 := fill_in_anchor_state A2 ⟨65.18, -43.82, 20, 1000, "DYE3"⟩ with hA3
  set A4 := fill_in_anchor_state A3 ⟨75.10, -42.32, 135, 150, "NGRIP"⟩ with hA4
  have hd1 : ("distance_" ++ "GRIP" : String) ∉ f.cols := hfresh _ (by decide)
  have hg1 : ("GHF_radial_" ++ "GRIP" : String) ∉ f.cols := hfresh _ (by decide)
  have c1 : A1.cols = f.cols ++ ["distance_" ++ "GRIP", "GHF_radial_" ++ "GRIP"] :=
    fill_in_anchor_state_cols f _ hd1 hg1 (by decide)
  have fresh1 := fresh_after A1 f.cols _ _ c1
  have hd2 : ("distance_" ++ "GISP2" : String) ∉ A1.cols :=
    fresh1 _ (hfresh _ (by decide)) (by decide) (by decide)
  have hg2 : ("GHF_radial_" ++ "GISP2" : String) ∉ A1.cols :=
    fresh1 _ (hfresh _ (by decide)) (by decide) (by decide)
  have c2 : A2.cols = A1.cols ++ ["distance_" ++ "GISP2", "GHF_radial_" ++ "GISP2"] :=
    fill_in_anchor_state_cols A1 _ hd2 hg2 (by decide)
  have fresh2 := fresh_after A2 A1.cols _ _ c2
  have hd3 : ("distance_" ++ "DYE3" : String) ∉ A2.cols :=
    fresh2 _ (fresh1 _ (hfresh _ (by decide)) (by decide) (by decide))
      (by decide) (by decide)
  have hg3 : ("GHF_radial_" ++ "DYE3" : String) ∉ A2.cols :=
    fresh2 _ (fresh1 _ (hfresh _ (by decide)) (by decide) (by decide))
      (by decide) (by decide)
  have c3 : A3.cols = A2.cols ++ ["distance_" ++ "DYE3", "GHF_radial_" ++ "DYE3"] :=
    fill_in_anchor_state_cols A2 _ hd3 hg3 (by decide)
  have fresh3 := fresh_after A3 A2.cols _ _ c3
  have hd4 : ("distance_" ++ "NGRIP" : String) ∉ A3.cols :=
    fresh3 _ (fresh2 _ (fresh1 _ (hfresh _ (by decide)) (by decide) (by decide))
      (by decide) (by decide)) (by decide) (by decide)
  have hg4 : ("GHF_radial_" ++ "NGRIP" : String) ∉ A3.cols :=
    fresh3 _ (fresh2 _ (fresh1 _ (hfresh _ (by decide)) (by decide) (by decide))
      (by decide) (by decide)) (by decide) (by decide)
  have c4 : A4.cols = A3.cols ++ ["distance_" ++ "NGRIP", "GHF_radial_" ++ "NGRIP"] :=
    fill_in_anchor_state_cols A3 _ hd4 hg4 (by decide)
  rw [c4, c3, c2, c1]
  simp only [List.append_assoc]
  rfl

theorem fill_in_state_cols (f : Frame) (hghf : "GHF" ∈ f.cols)
    (hfresh : ∀ name ∈ fillin_new_cols, name ∉ f.cols) :
    (fill_in_greenland_GHF_state f).cols = f.cols ++ fillin_new_cols := by
  have hfold := fill_in_fold_cols f hfresh
  simp only [fill_in_greenland_GHF_state]
  rw [setCol_cols_mem _ _ _ (by rw [hfold]; exact List.mem_append_left _ hghf), hfold]

/-- C8 counterexample: `fill_in_greenland_GHF` does mutate the caller's
dataset argument: on a frame with columns `Longitude_1`, `Latitude_1`,
`GHF` (and no rows), the argument's final state differs from its initial
state — eight `distance_X` / `GHF_radial_X` columns remain appended (and
`GHF` was overwritten in place). -/
theorem fill_in_greenland_GHF_state_mutates :
    fill_in_greenland_GHF_state ⟨["Longitude_1", "Latitude_1", "GHF"], []⟩
      ≠ (⟨["Longitude_1", "Latitude_1", "GHF"], []⟩ : Frame) := by
  intro heq
  have hc := congrArg Frame.cols heq
  rw [fill_in_state_cols ⟨["Longitude_1", "Latitude_1", "GHF"], []⟩ (by decide)
    (by decide)] at hc
  exact absurd hc (by decide)

/-- C8 amended: `split_by_distance` and `split` leave the caller's dataset
exactly as it was (the temporary `_distance` column is dropped in place
again), but `fill_in_greenland_GHF` mutates its argument: the caller's
frame ends with the eight per-anchor `distance_X` / `GHF_radial_X` columns
appended (and its `GHF` column overwritten by the imputed means), so it is
not the frame that was passed in. -/
theorem frame_state_effects (f : Frame) (center : ℝ × ℝ) (radius max_dist : ℝ)
    (hdist : "_distance" ∉ f.cols)
    (hrect : ∀ row ∈ f.rows, row.length = f.cols.length)
    (hghf : "GHF" ∈ f.cols)
    (hfresh : ∀ name ∈ fillin_new_cols, name ∉ f.cols) :
    split_by_distance_state f center radius = f ∧
    split_state f center max_dist = f ∧
    (fill_in_greenland_GHF_state f).cols = f.cols ++ fillin_new_cols ∧
    fill_in_greenland_GHF_state f ≠ f := by
  have h3 := fill_in_state_cols f hghf hfresh
  refine ⟨split_by_distance_state_restores f center radius hdist hrect,
    split_by_distance_state_restores f center max_dist hdist hrect, h3, ?_⟩
  intro heq
  have hc := congrArg Frame.cols heq
  rw [h3] at hc
  have hlen := congrArg List.length hc
  rw [List.length_append, show fillin_new_cols.length = 8 from rfl] at hlen
  omega

/-- C8 witness: the concrete frame with columns `Longitude_1`,
`Latitude_1`, `GHF` and no rows. -/
theorem frame_state_effects_witness :
    split_by_distance_state ⟨["Longitude_1", "Latitude_1", "GHF"], []⟩
        ((1 : ℝ), (2 : ℝ)) 3500
      = (⟨["Longitude_1", "Latitude_1", "GHF"], []⟩ : Frame) ∧
    split_state ⟨["Longitude_1", "Latitude_1", "GHF"], []⟩ ((1 : ℝ), (2 : ℝ)) 3500
      = (⟨["Longitude_1", "Latitude_1", "GHF"], []⟩ : Frame) ∧
    (fill_in_greenland_GHF_state ⟨["Longitude_1", "Latitude_1", "GHF"], []⟩).cols
      = ["Longitude_1", "Latitude_1", "GHF"] ++ fillin_new_cols ∧
    fill_in_greenland_GHF_state ⟨["Longitude_1", "Latitude_1", "GHF"], []⟩
      ≠ (⟨["Longitude_1", "Latitude_1", "GHF"], []⟩ : Frame) :=
  frame_state_effects ⟨["Longitude_1", "Latitude_1", "GHF"], []⟩ ((1 : ℝ), (2 : ℝ))
    3500 3500 (by decide) (by simp) (by decide) (by decide)

end GhfGreenland
